import Mathlib

/-!
Verification of `cuppa/build_with_location.py`.

This file shallowly embeds the `base` class of `build_with_location.py`
(per-dependency build configuration with cached locations and cached
object/library build nodes) and proves the specified properties about it.

Modelling conventions:
* Python strings-or-`None` are `Option String`; Python truthiness of such a
  value is `pyStrTruthy` (`None` and `""` are falsy).
* Python dicts are association lists (`afind` / `ainsert`); in-place dict
  mutation is rendered as functional update with an explicit write-back.
* SCons build nodes are opaque handles, modelled as `Nat` identifiers
  allocated from a counter in `BuildState`; each builder invocation
  (`StaticObject`/`SharedObject`, `BuildStaticLib`/`BuildSharedLib`,
  `Install`) allocates a fresh node and bumps its invocation counter.
* `os.path` functions are modelled for POSIX paths (`/` separator);
  `relpath` is modelled for operands resolved against the same root,
  `expanduser` expands only a leading `~` against the given home directory.
* Logging is side-effect-only; only the `logger.warn` in
  `build_library_from_source` is tracked (as the `warns` counter), since the
  specification mentions it explicitly.
-/

namespace Cuppa

/-- Python truthiness of a string-or-None value: `None` and `""` are falsy. -/
def pyStrTruthy : Option String → Bool
  | none => false
  | some s => s ≠ ""

/-- Python truthiness of a `None`-able list value: `None` and `[]` are falsy,
any non-empty list is truthy (its elements are irrelevant). -/
def pyListTruthy {α : Type} : Option (List α) → Bool
  | none => false
  | some l => ¬ l.isEmpty

/-! ### Association lists (model of Python dicts) -/

/-- First-match lookup in an association list (model of `d[k]` / `k in d`). -/
def afind {α β : Type} [DecidableEq α] : List (α × β) → α → Option β
  | [], _ => none
  | (k', v') :: rest, k => if k = k' then some v' else afind rest k

/-- Replace-or-append update of an association list (model of `d[k] = v`). -/
def ainsert {α β : Type} [DecidableEq α] : List (α × β) → α → β → List (α × β)
  | [], k, v => [(k, v)]
  | (k', v') :: rest, k, v =>
      if k = k' then (k, v) :: rest else (k', v') :: ainsert rest k v

/-! ### Models of the `os.path` functions used by the source

String prefix/suffix tests and splitting are implemented on character
lists by structural recursion so that all path functions evaluate by
definitional reduction. -/

/-- `pat` is a prefix of `l`, by structural recursion on both lists. -/
def listHasPfx : List Char → List Char → Bool
  | [], _ => true
  | _ :: _, [] => false
  | p :: ps, c :: cs => if p = c then listHasPfx ps cs else false

/-- `s` starts with `pat` (model of `str.startswith`). -/
def strStartsWith (s pat : String) : Bool := listHasPfx pat.data s.data

/-- `s` ends with `pat` (model of `str.endswith`). -/
def strEndsWith (s pat : String) : Bool :=
  listHasPfx pat.data.reverse s.data.reverse

/-- Drop the first `n` characters of `s`. -/
def strDrop (s : String) (n : Nat) : String := String.mk (s.data.drop n)

/-- Split a character list on a separator character. -/
def splitOnChar (sep : Char) : List Char → List (List Char)
  | [] => [[]]
  | c :: cs =>
      let r := splitOnChar sep cs
      if c = sep then [] :: r
      else
        match r with
        | h :: t => (c :: h) :: t
        | [] => [[c]]

/-- Split a path string on `/`. -/
def strSplitOnSlash (p : String) : List String :=
  (splitOnChar '/' p.data).map String.mk

/-- Model of `os.path.isabs` on POSIX: the path starts with `/`. -/
def os_path_isabs (p : String) : Bool := strStartsWith p "/"

/-- Model of the two-argument `os.path.join` on POSIX. -/
def os_path_join (a b : String) : String :=
  if strStartsWith b "/" then b
  else if a = "" ∨ strEndsWith a "/" then a ++ b
  else a ++ "/" ++ b

/-- Model of the three-argument `os.path.join` (left fold of the
two-argument join, as in `posixpath`). -/
def os_path_join3 (a b c : String) : String :=
  os_path_join (os_path_join a b) c

/-- Model of `os.path.expanduser`: expands a leading `~` component against
the given home directory; any other path is returned unchanged (the
`~user` form is out of scope for this development). -/
def os_path_expanduser (home p : String) : String :=
  if p = "~" then home
  else if strStartsWith p "~/" then home ++ strDrop p 1
  else p

/-- Index of the last occurrence of `c` in the list, if any. -/
def lastIdxOf (c : Char) : List Char → Option Nat
  | [] => none
  | x :: xs =>
      match lastIdxOf c xs with
      | some i => some (i + 1)
      | none => if x = c then some 0 else none

/-- Model of `os.path.splitext` on POSIX: split at the last dot of the last
path component, unless the basename up to that dot is all dots. -/
def os_path_splitext (p : String) : String × String :=
  let cs := p.data
  let s := match lastIdxOf '/' cs with | some i => i + 1 | none => 0
  match lastIdxOf '.' cs with
  | some d =>
      if s ≤ d ∧ ((cs.drop s).take (d - s)).any (fun ch => ch ≠ '.') then
        (String.mk (cs.take d), String.mk (cs.drop d))
      else (p, "")
  | none => (p, "")

/-- Path components of `p`, ignoring empty components and `.`. -/
def pathComps (p : String) : List String :=
  (strSplitOnSlash p).filter (fun c => c ≠ "" ∧ c ≠ ".")

/-- Drop the longest common prefix of two component lists, returning the two
remainders. -/
def dropCommon : List String → List String → List String × List String
  | a :: as, b :: bs => if a = b then dropCommon as bs else (a :: as, b :: bs)
  | as, bs => (as, bs)

/-- Model of `os.path.relpath path start` for operands resolved against the
same root (as in the build flow, where the sources live under the
dependency's local directory). -/
def os_path_relpath (path start : String) : String :=
  let (pr, sr) := dropCommon (pathComps path) (pathComps start)
  let rel := List.replicate sr.length ".." ++ pr
  if rel.isEmpty then "." else String.intercalate "/" rel

/-- Model of `os.path.normpath` on POSIX: collapse `//`, `.` and `..`
components (the double-leading-slash special case is out of scope). -/
def os_path_normpath (p : String) : String :=
  let isAbs := strStartsWith p "/"
  let f := (pathComps p).foldl
    (fun acc c =>
      if c = ".." then
        if isAbs then acc.dropLast
        else
          match acc.getLast? with
          | some l => if l ≠ ".." then acc.dropLast else acc ++ [".."]
          | none => [".."]
      else acc ++ [c]) []
  let body := String.intercalate "/" f
  if isAbs then "/" ++ body else if body = "" then "." else body

/-! ### Data model -/

/-- The resolved location of a fetched dependency (`cuppa.location.Location`
is an external collaborator; only the accessors used by the embedded code
are modelled: `local()` and `local_folder()`).  The field `localPath` models
the `local()` accessor (`local` is a Lean keyword). -/
structure Location where
  localPath : String
  localFolder : String
  deriving DecidableEq, Repr

/-- The constructor of the external `cuppa.location.Location` collaborator:
given the environment, a location string, an optional branch and an optional
extra sub path it either yields a `Location` or fails with a
`LocationException` (modelled by the error message). -/
def MkLocation (Env : Type) : Type :=
  Env → String → Option String → Option String → Except String Location

/-- The slice of the host build environment consumed by
`build_with_location.py`: option lookup, the named configuration keys and
the builder-support utilities (`RecursiveGlob` is modelled as a function of
its pattern, start and exclude-dirs arguments). -/
structure Env where
  getOption : String → Option String
  branchRoot : Option String
  thirdparty : Option String
  home : String
  toolVariantDir : String
  buildRoot : String
  toolVariantWorkingDir : String
  finalDir : String
  absFinalDir : String
  buildDir : String
  objSuffix : String
  shobjSuffix : String
  recursiveGlob : String → Option String → List String → List String

/-- The per-dependency-class configuration installed by the
`location_dependency` factory (class attributes that are never mutated). -/
structure ClassCfg where
  name : String
  defaultLocation : Option String
  defaultInclude : Option String
  defaultSysInclude : Option String
  extraSubPath : Option String
  deriving DecidableEq, Repr

/-- The mutable class-level state of `base`: `_includes`, `_sys_includes`,
`_source_path`, `_linktype` (all initially possibly `None`) and the
memoisation dict `_cached_locations` keyed by `(location, branch)`. -/
structure ClassState where
  includes : Option (List String)
  sysIncludes : Option (List String)
  sourcePath : Option String
  linktype : Option String
  cachedLocations : List ((String × Option String) × Location)
  deriving DecidableEq, Repr

/-- The class state right after the `location_dependency` factory ran:
`_source_path` and `_linktype` are baked in from the factory arguments, the
remaining attributes are the `base` class defaults. -/
def initClassState (source_path linktype : Option String) : ClassState :=
  { includes := none
    sysIncludes := none
    sourcePath := source_path
    linktype := linktype
    cachedLocations := [] }

/-- A dependency instance as constructed by `base.__init__`. -/
structure Instance where
  name : String
  location : Location
  includes : List String
  sysIncludes : List String
  sourcePath : Option String
  linktype : String
  deriving DecidableEq, Repr

/-! ### `add_options` -/

/-- One invocation of the `add_option` callback, recording the arguments
passed by `base.add_options` (`type_` models the `type` keyword argument). -/
structure OptionSpec where
  flag : String
  dest : String
  type_ : String
  nargs : Nat
  action : String
  help : String
  deriving DecidableEq, Repr

/-- Helper building one `add_option` invocation as issued by
`base.add_options`. -/
def mkOptionSpec (optName helpText : String) : OptionSpec :=
  { flag := "--" ++ optName
    dest := optName
    type_ := "string"
    nargs := 1
    action := "store"
    help := helpText }

/-- Embedding of `base.add_options`: the list of `add_option` invocations it
performs, in order.  The function is side-effecting only in the source; its
effect is fully described by this list. -/
def add_options (cfg : ClassCfg) : List OptionSpec :=
  [ mkOptionSpec (cfg.name ++ "-location") (cfg.name ++ " location to build against")
  , mkOptionSpec (cfg.name ++ "-branch") (cfg.name ++ " branch to build against. Providing a branch is optional")
  , mkOptionSpec (cfg.name ++ "-include") (cfg.name ++ " include sub-directory to be added to the include path. Optional")
  , mkOptionSpec (cfg.name ++ "-sys-include") (cfg.name ++ " include sub-directory to be added to the system include path. Optional")
  , mkOptionSpec (cfg.name ++ "-extra-sub-path") (cfg.name ++ " extra (relative) sub path to locate the dependency. Optional")
  , mkOptionSpec (cfg.name ++ "-source-path") (cfg.name ++ " path to source files. Optional")
  , mkOptionSpec (cfg.name ++ "-linktype") (cfg.name ++ " linktype: static (default) or shared. Optional") ]

/-! ### `location_id` and `_get_location` -/

/-- Embedding of `base.location_id`: resolve `(location, branch)` from the
CLI options, the class default location and the branch-guarded fallbacks
`env['branch_root']` and `env['thirdparty']`; `None` when no location
results (the debug log there is side-effect-only and not modelled). -/
def location_id (cfg : ClassCfg) (env : Env) : Option (String × Option String) :=
  let location := env.getOption (cfg.name ++ "-location")
  let branch := env.getOption (cfg.name ++ "-branch")
  let location :=
    if ¬ pyStrTruthy location ∧ pyStrTruthy cfg.defaultLocation then
      cfg.defaultLocation
    else location
  let location :=
    if ¬ pyStrTruthy location ∧ pyStrTruthy branch then env.branchRoot
    else location
  let location :=
    if ¬ pyStrTruthy location ∧ pyStrTruthy branch then env.thirdparty
    else location
  if ¬ pyStrTruthy location then none
  else some (os_path_expanduser env.home (location.getD ""), branch)

/-- Embedding of `base._get_location`: memoised `Location` construction.
The `try/except LocationException` of the source is rendered by the
`Except` result of the constructor `mk`; on failure the function returns
`None` and leaves the cache untouched. -/
def get_location (cfg : ClassCfg) (mk : MkLocation Env)
    (cache : List ((String × Option String) × Location)) (env : Env) :
    Option Location × List ((String × Option String) × Location) :=
  match location_id cfg env with
  | none => (none, cache)
  | some lid =>
      match afind cache lid with
      | some loc => (some loc, cache)
      | none =>
          match mk env lid.1 lid.2 cfg.extraSubPath with
          | .ok loc => (some loc, ainsert cache lid loc)
          | .error _ => (none, cache)

/-! ### `__init__` and `create` -/

/-- The per-entry body of the two include-processing loops of
`base.__init__`: falsy entries (`None` or `""`) are dropped, absolute paths
kept unchanged, and relative paths joined onto the location's local path. -/
def processEntry (location : Location) (i : Option String) : Option String :=
  match i with
  | some s =>
      if s ≠ "" then
        some (if os_path_isabs s then s else os_path_join location.localPath s)
      else none
  | none => none

/-- An include/sys-include entry of a constructed instance that arises from
one of the supplied paths in the way claim C10 describes: some supplied
entry equals it (when absolute) or joins onto the local path to give it
(when relative). -/
def suppliedEntryProp (location : Location) (supplied : List (Option String))
    (entry : String) : Prop :=
  ∃ s, some s ∈ supplied ∧
    ((os_path_isabs s ∧ entry = s)
      ∨ (¬ os_path_isabs s ∧ entry = os_path_join location.localPath s))

/-- Embedding of `base.__init__`.  The include lists may hold `None`
entries (Python lists are heterogeneous); entries failing the `if include:`
truthiness test are dropped.  When `source_path` is falsy the instance
falls back to the class attribute, which in the `create` flow carries the
same falsy value, so the falsy argument itself is stored.  The `env`
argument is unused by the source body and omitted here. -/
def base_init (cfg : ClassCfg) (location : Location)
    (includes sys_includes : List (Option String))
    (source_path linktype : Option String) : Instance :=
  let includes :=
    if includes.isEmpty ∧ sys_includes.isEmpty then [some location.localPath]
    else includes
  let storedIncludes := includes.filterMap (processEntry location)
  let storedSysIncludes := sys_includes.filterMap (processEntry location)
  let storedSourcePath :=
    if pyStrTruthy source_path then
      source_path.map fun sp =>
        if os_path_isabs sp then sp else os_path_join location.localPath sp
    else source_path
  let storedLinktype :=
    match linktype with
    | some lt => if lt = "" then "static" else lt
    | none => "static"
  { name := cfg.name
    location := location
    includes := storedIncludes
    sysIncludes := storedSysIncludes
    sourcePath := storedSourcePath
    linktype := storedLinktype }

/-- The `x and [x] or []` idiom of `create`: the one-element list of the
option value when truthy, else the empty list. -/
def optionList (o : Option String) : List String :=
  match o with
  | some s => if s ≠ "" then [s] else []
  | none => []

/-- The `if not cls._includes: cls._includes = include and [include] or []`
step of `create`: keep the stored list when truthy, else build it from the
CLI option value. -/
def resolveList (stored : Option (List String)) (opt : Option String) : List String :=
  if pyListTruthy stored then stored.getD [] else optionList opt

/-- The `if not cls._source_path: cls._source_path = env.get_option(...)`
step of `create` (also used for `_linktype`): keep the stored value when
truthy, else take the CLI option value. -/
def resolveStr (stored opt : Option String) : Option String :=
  if pyStrTruthy stored then stored else opt

/-- Embedding of `base.create`: resolve the location (returning `None` on
failure), assemble `_includes` / `_sys_includes` / `_source_path` /
`_linktype` on the class state, and construct the instance.  The
`include and [include] or []` idiom yields `[include]` when the option is
truthy and `[]` otherwise; the `.append` of a truthy default include runs
unconditionally on every call. -/
def create (cfg : ClassCfg) (mk : MkLocation Env) (st : ClassState) (env : Env) :
    Option Instance × ClassState :=
  match get_location cfg mk st.cachedLocations env with
  | (none, cache) => (none, { st with cachedLocations := cache })
  | (some location, cache) =>
      let includes : List String :=
        resolveList st.includes (env.getOption (cfg.name ++ "-include"))
      let sysIncludes : List String :=
        resolveList st.sysIncludes (env.getOption (cfg.name ++ "-sys-include"))
      let includes :=
        if pyStrTruthy cfg.defaultInclude then includes ++ [cfg.defaultInclude.getD ""]
        else includes
      let sysIncludes :=
        if pyStrTruthy cfg.defaultSysInclude then sysIncludes ++ [cfg.defaultSysInclude.getD ""]
        else sysIncludes
      let sourcePath := resolveStr st.sourcePath (env.getOption (cfg.name ++ "-source-path"))
      let linktype := resolveStr st.linktype (env.getOption (cfg.name ++ "-linktype"))
      let inst := base_init cfg location (includes.map some) (sysIncludes.map some)
        sourcePath linktype
      (some inst,
        { includes := some includes
          sysIncludes := some sysIncludes
          sourcePath := sourcePath
          linktype := linktype
          cachedLocations := cache })

/-- Embedding of the `location_dependency` factory: it produces a class
whose configuration attributes come from the factory arguments and whose
mutable class state starts from the supplied `source_path`/`linktype`. -/
def location_dependency (name : String)
    (location include_ sys_include extra_sub_path source_path linktype : Option String) :
    ClassCfg × ClassState :=
  ( { name := name
      defaultLocation := location
      defaultInclude := include_
      defaultSysInclude := sys_include
      extraSubPath := extra_sub_path }
  , initClassState source_path linktype )

/-! ### Build nodes and `build_library_from_source` -/

/-- The state of the host build framework as observed by the embedded code:
a fresh-node counter (build nodes are opaque handles, so identity is all
that matters) and one invocation counter per builder kind, plus the
`logger.warn` counter. -/
structure BuildState where
  nextNode : Nat
  objCalls : Nat
  libCalls : Nat
  installCalls : Nat
  warns : Nat
  deriving DecidableEq, Repr

/-- Model of `env.StaticObject` / `env.SharedObject`: creates a fresh object
build node for the given output path and source (the arguments only
influence the scheduled action, not the handle). -/
def objBuilder (s : BuildState) (objPath source : String) : Nat × BuildState :=
  (s.nextNode, { s with nextNode := s.nextNode + 1, objCalls := s.objCalls + 1 })

/-- Model of `env.BuildStaticLib` / `env.BuildSharedLib`: creates a fresh
library build node. -/
def libBuilder (s : BuildState) (libraryName : String) (objects : List Nat)
    (finalDir : String) : Nat × BuildState :=
  (s.nextNode, { s with nextNode := s.nextNode + 1, libCalls := s.libCalls + 1 })

/-- Model of `env.Install`: creates a fresh install build node wrapping the
given node. -/
def installBuilder (s : BuildState) (destDir : String) (node : Nat) : Nat × BuildState :=
  (s.nextNode, { s with nextNode := s.nextNode + 1, installCalls := s.installCalls + 1 })

/-- The two class-level artifact caches `base._prebuilt_objects` and
`base._prebuilt_libraries`, each keyed by dependency name, then variant
key, then relative object path (respectively link type). -/
structure Caches where
  prebuiltObjects : List (String × List (String × List (String × Nat)))
  prebuiltLibraries : List (String × List (String × List (String × Nat)))
  deriving DecidableEq, Repr

/-- Embedding of `base.lazy_create_node`: the inner per-(name, variant)
dict, with missing levels read as empty.  The source returns the inner dict
by reference and mutates it in place; this functional rendering reads it
here and writes it back with `store_nodes` after the mutations. -/
def lazy_create_node (name variantKey : String)
    (cachedNodes : List (String × List (String × List (String × Nat)))) :
    List (String × Nat) :=
  (afind ((afind cachedNodes name).getD []) variantKey).getD []

/-- Write an updated inner per-(name, variant) dict back into the two-level
cache (the write-back half of the in-place mutation of the source). -/
def store_nodes (name variantKey : String)
    (cachedNodes : List (String × List (String × List (String × Nat))))
    (inner : List (String × Nat)) :
    List (String × List (String × List (String × Nat))) :=
  ainsert cachedNodes name (ainsert ((afind cachedNodes name).getD []) variantKey inner)

/-- The relative object path derived from a source file: the source path
relative to the dependency's local dir, with its extension replaced by the
object suffix (lines 229-230 of the source). -/
def rel_obj_key (localDir objSuffix source : String) : String :=
  (os_path_splitext (os_path_relpath source localDir)).1 ++ objSuffix

/-- The per-source loop of `build_library_from_source` (lines 227-234):
for each source compute its relative object path, reuse the cached object
node when present, otherwise invoke the object builder and cache the fresh
node; collect the nodes in order. -/
def objectLoop (localDir buildDir objSuffix : String) :
    List String → List (String × Nat) → BuildState →
    List (String × Nat) × List Nat × BuildState
  | [], objs, bst => (objs, [], bst)
  | source :: rest, objs, bst =>
      let relObjPath := rel_obj_key localDir objSuffix source
      match afind objs relObjPath with
      | some n =>
          let r := objectLoop localDir buildDir objSuffix rest objs bst
          (r.1, n :: r.2.1, r.2.2)
      | none =>
          let p := objBuilder bst (os_path_join buildDir relObjPath) source
          let r := objectLoop localDir buildDir objSuffix rest (ainsert objs relObjPath p.1) p.2
          (r.1, p.1 :: r.2.1, r.2.2)

/-- The effective link type of a `build_library_from_source` call: the
explicit argument when truthy, else the instance's `_linktype`. -/
def effectiveLinktype (inst : Instance) (linktype : Option String) : String :=
  if pyStrTruthy linktype then linktype.getD "" else inst.linktype

/-- The effective source list of a `build_library_from_source` call: the
explicit argument when truthy (Python `None` and `[]` are both falsy and
both modelled by `[]`), else the recursive glob for `*.cpp` under the
instance's source path excluding `env['build_dir']`. -/
def effectiveSources (inst : Instance) (env : Env) (sources : List String) : List String :=
  if sources.isEmpty then env.recursiveGlob "*.cpp" inst.sourcePath [env.buildDir]
  else sources

/-- The library phase of `build_library_from_source` (lines 236-244): if no
library node is cached for the link type, build one (wrapping shared
libraries in an install step) and cache it; return the cached node. -/
def libPhase (linktype libraryName finalDir absFinalDir : String)
    (objects : List Nat) (libs : List (String × Nat)) (bst : BuildState) :
    Nat × List (String × Nat) × BuildState :=
  match afind libs linktype with
  | some n => (n, libs, bst)
  | none =>
      let p := libBuilder bst libraryName objects finalDir
      let q := if linktype = "shared" then installBuilder p.2 absFinalDir p.1 else p
      (q.1, ainsert libs linktype q.1, q.2)

/-- Embedding of `base.build_library_from_source`.  Returns the library
build node (or `None` when neither sources nor a source path are
configured), the updated artifact caches and the updated build state. -/
def build_library_from_source (inst : Instance) (env : Env)
    (sources : List String) (library_name linktype : Option String)
    (caches : Caches) (bst : BuildState) :
    Option Nat × Caches × BuildState :=
  if ¬ pyStrTruthy inst.sourcePath ∧ sources.isEmpty then
    (none, caches, { bst with warns := bst.warns + 1 })
  else
    let libraryName := if pyStrTruthy library_name then library_name.getD "" else inst.name
    let linktype := effectiveLinktype inst linktype
    let variantKey := env.toolVariantDir
    let prebuiltObjects := lazy_create_node inst.name variantKey caches.prebuiltObjects
    let prebuiltLibraries := lazy_create_node inst.name variantKey caches.prebuiltLibraries
    let localDir := inst.location.localPath
    let localFolder := inst.location.localFolder
    let buildDir := os_path_join3 env.buildRoot localFolder env.toolVariantWorkingDir
    let finalDir := os_path_normpath (os_path_join buildDir env.finalDir)
    let objSuffix := if linktype = "shared" then env.shobjSuffix else env.objSuffix
    let sources := effectiveSources inst env sources
    let r := objectLoop localDir buildDir objSuffix sources prebuiltObjects bst
    let l := libPhase linktype libraryName finalDir env.absFinalDir r.2.1 prebuiltLibraries r.2.2
    ( some l.1
    , { prebuiltObjects := store_nodes inst.name variantKey caches.prebuiltObjects r.1
        prebuiltLibraries := store_nodes inst.name variantKey caches.prebuiltLibraries l.2.1 }
    , l.2.2 )

/-! ### Concrete sample inputs used by witnesses and counterexamples -/

/-- A sample resolved location with an absolute local path. -/
def locA : Location := { localPath := "/loc", localFolder := "loc" }

/-- A sample resolved location whose local path is relative. -/
def locRel : Location := { localPath := "rel", localFolder := "rel" }

/-- A `Location` constructor that always succeeds with `locA`. -/
def mkOk : MkLocation Env := fun _ _ _ _ => .ok locA

/-- A `Location` constructor that always fails with a `LocationException`. -/
def mkFail : MkLocation Env := fun _ _ _ _ => .error "fetch failed"

/-- A sample environment with no CLI options set. -/
def envNone : Env :=
  { getOption := fun _ => none
    branchRoot := none
    thirdparty := none
    home := "/home/u"
    toolVariantDir := "gcc_debug"
    buildRoot := "/br"
    toolVariantWorkingDir := "wd"
    finalDir := "fin"
    absFinalDir := "/abs/fin"
    buildDir := "/bd"
    objSuffix := ".o"
    shobjSuffix := ".os"
    recursiveGlob := fun _ _ _ => [] }

/-- An environment with `--dep-location=/cli` and `--dep-branch=dev` set. -/
def envCli : Env :=
  { envNone with
    getOption := fun k =>
      if k = "dep-location" then some "/cli"
      else if k = "dep-branch" then some "dev"
      else none }

/-- An environment with only `--dep-branch=dev` set, a falsy (empty)
`branch_root` and a configured thirdparty root. -/
def envBranchOnly : Env :=
  { envNone with
    getOption := fun k => if k = "dep-branch" then some "dev" else none
    branchRoot := some ""
    thirdparty := some "/tp" }

/-- An environment with only `--dep-branch=dev` set and both fallback roots
absent. -/
def envBranchNoRoots : Env :=
  { envNone with
    getOption := fun k => if k = "dep-branch" then some "dev" else none }

/-- An environment with only `--dep-branch=dev` set and a truthy
`branch_root`. -/
def envBranchRoot : Env :=
  { envNone with
    getOption := fun k => if k = "dep-branch" then some "dev" else none
    branchRoot := some "/broot" }

/-- A minimal dependency class configuration with no defaults. -/
def cfgPlain : ClassCfg :=
  { name := "dep"
    defaultLocation := none
    defaultInclude := none
    defaultSysInclude := none
    extraSubPath := none }

/-- A class configuration with a default location only. -/
def cfgDefLoc : ClassCfg := { cfgPlain with defaultLocation := some "/dl" }

/-- A class configuration with a default location and a default include
(used to exhibit the non-idempotence of `create`). -/
def cfgDefInc : ClassCfg := { cfgDefLoc with defaultInclude := some "inc" }

/-- A sample instance with a configured source path. -/
def instSrc : Instance :=
  { name := "dep"
    location := locA
    includes := ["/loc"]
    sysIncludes := []
    sourcePath := some "/loc/src"
    linktype := "static" }

/-- A sample instance with no configured source path. -/
def instNoSrc : Instance := { instSrc with sourcePath := none }

/-- The empty artifact caches. -/
def caches0 : Caches := { prebuiltObjects := [], prebuiltLibraries := [] }

/-- The initial build state. -/
def bst0 : BuildState :=
  { nextNode := 0, objCalls := 0, libCalls := 0, installCalls := 0, warns := 0 }

/-- Two sample source files under the sample location. -/
def srcsA : List String := ["/loc/src/a.cpp", "/loc/src/b.cpp"]

/-! ### Lemmas about the association-list dict model -/

theorem afind_ainsert_self {α β : Type} [DecidableEq α]
    (m : List (α × β)) (k : α) (v : β) : afind (ainsert m k v) k = some v := by
  induction m with
  | nil => simp [ainsert, afind]
  | cons hd tl ih =>
      obtain ⟨k', v'⟩ := hd
      by_cases h : k = k' <;> simp [ainsert, afind, h, ih]

theorem afind_ainsert_ne {α β : Type} [DecidableEq α]
    (m : List (α × β)) (k k' : α) (v : β) (h : k ≠ k') :
    afind (ainsert m k' v) k = afind m k := by
  induction m with
  | nil => simp [ainsert, afind, h]
  | cons hd tl ih =>
      obtain ⟨k₀, v₀⟩ := hd
      by_cases h0 : k' = k₀
      · subst h0; simp [ainsert, afind, h]
      · by_cases h1 : k = k₀ <;> simp [ainsert, afind, h0, h1, ih]

theorem ainsert_self {α β : Type} [DecidableEq α]
    (m : List (α × β)) (k : α) (v : β) (h : afind m k = some v) :
    ainsert m k v = m := by
  induction m with
  | nil => simp [afind] at h
  | cons hd tl ih =>
      obtain ⟨k', v'⟩ := hd
      by_cases h0 : k = k'
      · subst h0
        simp [afind] at h
        simp [ainsert, h]
      · simp [afind, h0] at h
        simp [ainsert, h0, ih h]

theorem ainsert_ainsert_self {α β : Type} [DecidableEq α]
    (m : List (α × β)) (k : α) (v v' : β) :
    ainsert (ainsert m k v) k v' = ainsert m k v' := by
  induction m with
  | nil => simp [ainsert]
  | cons hd tl ih =>
      obtain ⟨k₀, v₀⟩ := hd
      by_cases h : k = k₀ <;> simp [ainsert, h, ih]

/-! ### Lemmas about the artifact caches and the object/library phases -/

theorem lazy_store_roundtrip (name variantKey : String)
    (cachedNodes : List (String × List (String × List (String × Nat))))
    (inner : List (String × Nat)) :
    lazy_create_node name variantKey (store_nodes name variantKey cachedNodes inner)
      = inner := by
  simp [lazy_create_node, store_nodes, afind_ainsert_self]

theorem store_store (name variantKey : String)
    (cachedNodes : List (String × List (String × List (String × Nat))))
    (inner : List (String × Nat)) :
    store_nodes name variantKey (store_nodes name variantKey cachedNodes inner) inner
      = store_nodes name variantKey cachedNodes inner := by
  simp [store_nodes, afind_ainsert_self, ainsert_ainsert_self]

theorem objectLoop_fst_mono (localDir buildDir objSuffix : String)
    (srcs : List String) (k : String) (v : Nat) :
    ∀ (objs : List (String × Nat)) (bst : BuildState),
      afind objs k = some v →
      afind (objectLoop localDir buildDir objSuffix srcs objs bst).1 k = some v := by
  induction srcs with
  | nil => intro objs bst h; simpa [objectLoop] using h
  | cons s rest ih =>
      intro objs bst h
      simp only [objectLoop]
      cases hf : afind objs (rel_obj_key localDir objSuffix s) with
      | some n => simpa using ih objs bst h
      | none =>
          have hk : k ≠ rel_obj_key localDir objSuffix s := by
            intro he
            rw [he, hf] at h
            cases h
          refine ih _ _ ?_
          rw [afind_ainsert_ne _ _ _ _ hk]
          exact h

theorem objectLoop_idem (localDir buildDir objSuffix : String)
    (srcs : List String) :
    ∀ (objs : List (String × Nat)) (bst bst' : BuildState),
      objectLoop localDir buildDir objSuffix srcs
          (objectLoop localDir buildDir objSuffix srcs objs bst).1 bst'
        = ((objectLoop localDir buildDir objSuffix srcs objs bst).1,
           (objectLoop localDir buildDir objSuffix srcs objs bst).2.1, bst') := by
  induction srcs with
  | nil => intro objs bst bst'; simp [objectLoop]
  | cons s rest ih =>
      intro objs bst bst'
      cases hf : afind objs (rel_obj_key localDir objSuffix s) with
      | some n =>
          have hmono := objectLoop_fst_mono localDir buildDir objSuffix rest
            (rel_obj_key localDir objSuffix s) n objs bst hf
          simp only [objectLoop, hf]
          simp only [hmono, ih]
      | none =>
          have hself : afind
              (ainsert objs (rel_obj_key localDir objSuffix s)
                (objBuilder bst (os_path_join buildDir (rel_obj_key localDir objSuffix s)) s).1)
              (rel_obj_key localDir objSuffix s)
              = some (objBuilder bst
                  (os_path_join buildDir (rel_obj_key localDir objSuffix s)) s).1 :=
            afind_ainsert_self _ _ _
          have hmono := objectLoop_fst_mono localDir buildDir objSuffix rest
            (rel_obj_key localDir objSuffix s) _ _
            (objBuilder bst (os_path_join buildDir (rel_obj_key localDir objSuffix s)) s).2
            hself
          simp only [objectLoop, hf]
          simp only [hmono, ih]

theorem objectLoop_preserves (localDir buildDir objSuffix : String)
    (srcs : List String) :
    ∀ (objs : List (String × Nat)) (bst : BuildState),
      (objectLoop localDir buildDir objSuffix srcs objs bst).2.2.libCalls = bst.libCalls
      ∧ (objectLoop localDir buildDir objSuffix srcs objs bst).2.2.installCalls = bst.installCalls
      ∧ (objectLoop localDir buildDir objSuffix srcs objs bst).2.2.warns = bst.warns := by
  induction srcs with
  | nil => intro objs bst; simp [objectLoop]
  | cons s rest ih =>
      intro objs bst
      cases hf : afind objs (rel_obj_key localDir objSuffix s) with
      | some n => simpa [objectLoop, hf] using ih objs bst
      | none => simpa [objectLoop, hf, objBuilder] using ih _ _

theorem libPhase_found (linktype libraryName finalDir absFinalDir : String)
    (objects : List Nat) (libs : List (String × Nat)) (bst : BuildState)
    (n : Nat) (h : afind libs linktype = some n) :
    libPhase linktype libraryName finalDir absFinalDir objects libs bst
      = (n, libs, bst) := by
  simp [libPhase, h]

theorem libPhase_self_mem (linktype libraryName finalDir absFinalDir : String)
    (objects : List Nat) (libs : List (String × Nat)) (bst : BuildState) :
    afind (libPhase linktype libraryName finalDir absFinalDir objects libs bst).2.1 linktype
      = some (libPhase linktype libraryName finalDir absFinalDir objects libs bst).1 := by
  cases h : afind libs linktype with
  | some n => simp [libPhase, h]
  | none => simp [libPhase, h, afind_ainsert_self]

/-- Repeating a `build_library_from_source` call on the caches and build
state it produced is a no-op: the same library node is returned, both
artifact caches are unchanged, and no builder is invoked (the whole
`BuildState` is unchanged). -/
theorem build_library_from_source_idem (inst : Instance) (env : Env)
    (sources : List String) (library_name linktype : Option String)
    (caches : Caches) (bst : BuildState)
    (h : pyStrTruthy inst.sourcePath ∨ ¬ sources.isEmpty) :
    build_library_from_source inst env sources library_name linktype
        (build_library_from_source inst env sources library_name linktype caches bst).2.1
        (build_library_from_source inst env sources library_name linktype caches bst).2.2
      = build_library_from_source inst env sources library_name linktype caches bst := by
  have hguard : ¬ (¬ pyStrTruthy inst.sourcePath ∧ sources.isEmpty) := by
    rcases h with h | h
    · exact fun hc => hc.1 h
    · exact fun hc => h hc.2
  simp only [build_library_from_source, if_neg hguard]
  simp only [lazy_store_roundtrip, objectLoop_idem]
  rw [libPhase_found _ _ _ _ _ _ _ _ (libPhase_self_mem _ _ _ _ _ _ _)]
  simp only [store_store]

/-- Unfolding of `build_library_from_source` in the non-degenerate case, in
terms of the named phases. -/
theorem bls_unfold (inst : Instance) (env : Env) (sources : List String)
    (library_name linktype : Option String) (caches : Caches) (bst : BuildState)
    (h : ¬ (¬ pyStrTruthy inst.sourcePath ∧ sources.isEmpty)) :
    build_library_from_source inst env sources library_name linktype caches bst
      = (let lt := effectiveLinktype inst linktype
         let libraryName := if pyStrTruthy library_name then library_name.getD "" else inst.name
         let buildDir := os_path_join3 env.buildRoot inst.location.localFolder env.toolVariantWorkingDir
         let objSuffix := if lt = "shared" then env.shobjSuffix else env.objSuffix
         let r := objectLoop inst.location.localPath buildDir objSuffix
           (effectiveSources inst env sources)
           (lazy_create_node inst.name env.toolVariantDir caches.prebuiltObjects) bst
         let l := libPhase lt libraryName (os_path_normpath (os_path_join buildDir env.finalDir))
           env.absFinalDir r.2.1
           (lazy_create_node inst.name env.toolVariantDir caches.prebuiltLibraries) r.2.2
         ( some l.1
         , { prebuiltObjects := store_nodes inst.name env.toolVariantDir caches.prebuiltObjects r.1
             prebuiltLibraries := store_nodes inst.name env.toolVariantDir caches.prebuiltLibraries l.2.1 }
         , l.2.2 )) := by
  simp only [build_library_from_source, if_neg h]

theorem objectLoop_complete (localDir buildDir objSuffix : String)
    (srcs : List String) :
    ∀ (objs : List (String × Nat)) (bst : BuildState) (src : String),
      src ∈ srcs →
      (afind (objectLoop localDir buildDir objSuffix srcs objs bst).1
        (rel_obj_key localDir objSuffix src)).isSome := by
  induction srcs with
  | nil => intro objs bst src hsrc; cases hsrc
  | cons s rest ih =>
      intro objs bst src hsrc
      cases hsrc with
      | head =>
          cases hf : afind objs (rel_obj_key localDir objSuffix s) with
          | some n =>
              have hm := objectLoop_fst_mono localDir buildDir objSuffix rest
                (rel_obj_key localDir objSuffix s) n objs bst hf
              simp only [objectLoop, hf]
              simp [hm]
          | none =>
              have hself := afind_ainsert_self objs (rel_obj_key localDir objSuffix s)
                (objBuilder bst (os_path_join buildDir (rel_obj_key localDir objSuffix s)) s).1
              have hm := objectLoop_fst_mono localDir buildDir objSuffix rest
                (rel_obj_key localDir objSuffix s) _ _
                (objBuilder bst (os_path_join buildDir (rel_obj_key localDir objSuffix s)) s).2
                hself
              simp only [objectLoop, hf]
              simp [hm]
      | tail _ hmem =>
          cases hf : afind objs (rel_obj_key localDir objSuffix s) with
          | some n =>
              simp only [objectLoop, hf]
              simpa using ih objs bst src hmem
          | none =>
              simp only [objectLoop, hf]
              simpa using ih _ _ src hmem

theorem libPhase_build_libCalls (linktype libraryName finalDir absFinalDir : String)
    (objects : List Nat) (libs : List (String × Nat)) (bst : BuildState)
    (h : afind libs linktype = none) :
    (libPhase linktype libraryName finalDir absFinalDir objects libs bst).2.2.libCalls
      = bst.libCalls + 1 := by
  by_cases hs : linktype = "shared"
  · subst hs
    simp [libPhase, h, libBuilder, installBuilder]
  · simp [libPhase, h, hs, libBuilder, installBuilder]

theorem libPhase_found_libCalls (linktype libraryName finalDir absFinalDir : String)
    (objects : List Nat) (libs : List (String × Nat)) (bst : BuildState)
    (n : Nat) (h : afind libs linktype = some n) :
    (libPhase linktype libraryName finalDir absFinalDir objects libs bst).2.2.libCalls
      = bst.libCalls := by
  simp [libPhase, h]

/-! ### Lemmas about `_get_location` and `create` -/

theorem resolveList_idem (stored : Option (List String)) (opt : Option String) :
    resolveList (some (resolveList stored opt)) opt = resolveList stored opt := by
  by_cases h : pyListTruthy (some (resolveList stored opt))
  · rw [resolveList, if_pos h, Option.getD]
  · rw [resolveList, if_neg h]
    have hnil : resolveList stored opt = [] := by
      simp [pyListTruthy] at h
      exact h
    by_cases hs : pyListTruthy stored
    · exfalso
      cases stored with
      | none => simp [pyListTruthy] at hs
      | some l =>
          rw [resolveList, if_pos hs, Option.getD] at hnil
          rw [hnil] at hs
          simp [pyListTruthy] at hs
    · have hunf : resolveList stored opt = optionList opt := by
        rw [resolveList, if_neg hs]
      rw [hunf]

theorem resolveStr_idem (stored opt : Option String) :
    resolveStr (resolveStr stored opt) opt = resolveStr stored opt := by
  by_cases h : pyStrTruthy (resolveStr stored opt)
  · rw [resolveStr, if_pos h]
  · rw [resolveStr, if_neg h]
    by_cases hs : pyStrTruthy stored
    · exfalso
      rw [resolveStr, if_pos hs] at h
      exact h hs
    · rw [resolveStr, if_neg hs]

theorem get_location_none_stable (cfg : ClassCfg) (mk : MkLocation Env)
    (cache : List ((String × Option String) × Location)) (env : Env)
    (h : (get_location cfg mk cache env).1 = none) :
    get_location cfg mk cache env = (none, cache) := by
  unfold get_location at h ⊢
  cases hl : location_id cfg env with
  | none => simp only [hl]
  | some lid =>
      simp only [hl] at h ⊢
      cases hf : afind cache lid with
      | some loc => simp only [hf] at h; simp at h
      | none =>
          simp only [hf] at h ⊢
          cases hm : mk env lid.1 lid.2 cfg.extraSubPath with
          | ok loc => simp only [hm] at h; simp at h
          | error e => simp only [hm]

theorem get_location_stable (cfg : ClassCfg) (mk : MkLocation Env)
    (cache cache' : List ((String × Option String) × Location)) (env : Env)
    (loc : Location)
    (h : get_location cfg mk cache env = (some loc, cache')) :
    get_location cfg mk cache' env = (some loc, cache') := by
  unfold get_location at h ⊢
  cases hl : location_id cfg env with
  | none => simp only [hl] at h; cases h
  | some lid =>
      simp only [hl] at h ⊢
      cases hf : afind cache lid with
      | some loc0 =>
          simp only [hf, Prod.mk.injEq, Option.some.injEq] at h
          obtain ⟨h1, h2⟩ := h
          subst h1
          subst h2
          simp only [hf]
      | none =>
          simp only [hf] at h
          cases hm : mk env lid.1 lid.2 cfg.extraSubPath with
          | ok loc0 =>
              simp only [hm, Prod.mk.injEq, Option.some.injEq] at h
              obtain ⟨h1, h2⟩ := h
              subst h1
              subst h2
              simp only [afind_ainsert_self]
          | error e => simp only [hm] at h; cases h

/-- Repeating `create` on the class state it produced yields the same
result, provided the class has no default include and no default
sys-include (the unconditionally re-appended defaults are the only source
of non-idempotence). -/
theorem create_stable (cfg : ClassCfg) (mk : MkLocation Env)
    (st : ClassState) (env : Env)
    (hI : ¬ pyStrTruthy cfg.defaultInclude)
    (hS : ¬ pyStrTruthy cfg.defaultSysInclude) :
    create cfg mk (create cfg mk st env).2 env = create cfg mk st env := by
  unfold create
  cases hg : get_location cfg mk st.cachedLocations env with
  | mk oloc cache =>
      cases oloc with
      | none =>
          have h1 : cache = st.cachedLocations := by
            have := get_location_none_stable cfg mk st.cachedLocations env
              (by rw [hg])
            rw [hg] at this
            exact (Prod.mk.injEq .. ▸ this).2
          subst h1
          simp only [hg]
      | some loc =>
          have hstable := get_location_stable cfg mk st.cachedLocations cache env loc hg
          simp only [hg, if_neg hI, if_neg hS, hstable,
            resolveList_idem, resolveStr_idem]

theorem processEntry_mem (loc : Location) (l : List (Option String)) (entry : String)
    (h : entry ∈ l.filterMap (processEntry loc)) : suppliedEntryProp loc l entry := by
  rw [List.mem_filterMap] at h
  obtain ⟨i, hi, hpe⟩ := h
  cases i with
  | none => simp [processEntry] at hpe
  | some s =>
      by_cases hse : s = ""
      · subst hse
        simp [processEntry] at hpe
      · rw [processEntry] at hpe
        simp only [if_pos hse, Option.some.injEq] at hpe
        refine ⟨s, hi, ?_⟩
        by_cases habs : os_path_isabs s
        · refine Or.inl ⟨habs, ?_⟩
          rw [← hpe, if_pos habs]
        · refine Or.inr ⟨by simp [habs], ?_⟩
          rw [← hpe, if_neg habs]

/-! ### Claim theorems -/

/-- C1: for every dependency instance, build variant and source file,
calling `build_library_from_source` a second time with the same arguments
on the state produced by the first call reuses exactly the object build
nodes stored in the per-variant object cache by the first call — the
second object phase returns the first call's node list while changing
neither the inner cache nor the build state (so the object builder is not
invoked again) — every source file's derived relative object path is
present in that cache, and the second call as a whole is a no-op returning
the same library node. -/
theorem C1_second_call_reuses_cached_object_nodes (inst : Instance) (env : Env)
    (sources : List String) (library_name linktype : Option String)
    (caches : Caches) (bst : BuildState)
    (h : pyStrTruthy inst.sourcePath ∨ ¬ sources.isEmpty) :
    objectLoop inst.location.localPath
        (os_path_join3 env.buildRoot inst.location.localFolder env.toolVariantWorkingDir)
        (if effectiveLinktype inst linktype = "shared" then env.shobjSuffix else env.objSuffix)
        (effectiveSources inst env sources)
        (lazy_create_node inst.name env.toolVariantDir
          (build_library_from_source inst env sources library_name linktype caches bst).2.1.prebuiltObjects)
        (build_library_from_source inst env sources library_name linktype caches bst).2.2
      = (lazy_create_node inst.name env.toolVariantDir
          (build_library_from_source inst env sources library_name linktype caches bst).2.1.prebuiltObjects,
         (objectLoop inst.location.localPath
           (os_path_join3 env.buildRoot inst.location.localFolder env.toolVariantWorkingDir)
           (if effectiveLinktype inst linktype = "shared" then env.shobjSuffix else env.objSuffix)
           (effectiveSources inst env sources)
           (lazy_create_node inst.name env.toolVariantDir caches.prebuiltObjects) bst).2.1,
         (build_library_from_source inst env sources library_name linktype caches bst).2.2)
    ∧ (∀ src ∈ effectiveSources inst env sources,
        (afind (lazy_create_node inst.name env.toolVariantDir
            (build_library_from_source inst env sources library_name linktype caches bst).2.1.prebuiltObjects)
          (rel_obj_key inst.location.localPath
            (if effectiveLinktype inst linktype = "shared" then env.shobjSuffix else env.objSuffix)
            src)).isSome)
    ∧ build_library_from_source inst env sources library_name linktype
        (build_library_from_source inst env sources library_name linktype caches bst).2.1
        (build_library_from_source inst env sources library_name linktype caches bst).2.2
      = build_library_from_source inst env sources library_name linktype caches bst := by
  have hguard : ¬ (¬ pyStrTruthy inst.sourcePath ∧ sources.isEmpty) := by
    rcases h with h | h
    · exact fun hc => hc.1 h
    · exact fun hc => h hc.2
  refine ⟨?_, ?_,
    build_library_from_source_idem inst env sources library_name linktype caches bst h⟩
  · simp only [bls_unfold inst env sources library_name linktype caches bst hguard,
      lazy_store_roundtrip]
    exact objectLoop_idem _ _ _ _ _ _ _
  · intro src hsrc
    simp only [bls_unfold inst env sources library_name linktype caches bst hguard,
      lazy_store_roundtrip]
    exact objectLoop_complete _ _ _ _ _ _ src hsrc

/-- C1 witness: at a concrete instance, environment and source list, the
second call is a no-op. -/
theorem C1_witness :
    (pyStrTruthy instSrc.sourcePath ∨ ¬ srcsA.isEmpty)
    ∧ build_library_from_source instSrc envNone srcsA none none
        (build_library_from_source instSrc envNone srcsA none none caches0 bst0).2.1
        (build_library_from_source instSrc envNone srcsA none none caches0 bst0).2.2
      = build_library_from_source instSrc envNone srcsA none none caches0 bst0 :=
  ⟨Or.inl (by decide),
   (C1_second_call_reuses_cached_object_nodes instSrc envNone srcsA none none caches0 bst0
     (Or.inl (by decide))).2.2⟩

/-- C2: for every dependency name, build variant and link type, the library
build node is created at most once: when no node is cached for the
effective link type the first call invokes the library builder exactly
once and stores the returned node in the per-variant library cache under
the link type; when a node is cached the call returns it without invoking
the library builder; and a repeated identical call returns the same node
with the library-builder invocation count unchanged. -/
theorem C2_library_node_created_at_most_once (inst : Instance) (env : Env)
    (sources : List String) (library_name linktype : Option String)
    (caches : Caches) (bst : BuildState)
    (h : pyStrTruthy inst.sourcePath ∨ ¬ sources.isEmpty) :
    (afind (lazy_create_node inst.name env.toolVariantDir caches.prebuiltLibraries)
        (effectiveLinktype inst linktype) = none →
      (build_library_from_source inst env sources library_name linktype caches bst).2.2.libCalls
          = bst.libCalls + 1
      ∧ afind (lazy_create_node inst.name env.toolVariantDir
            (build_library_from_source inst env sources library_name linktype caches bst).2.1.prebuiltLibraries)
          (effectiveLinktype inst linktype)
          = (build_library_from_source inst env sources library_name linktype caches bst).1)
    ∧ (∀ n : Nat,
      afind (lazy_create_node inst.name env.toolVariantDir caches.prebuiltLibraries)
          (effectiveLinktype inst linktype) = some n →
      (build_library_from_source inst env sources library_name linktype caches bst).2.2.libCalls
          = bst.libCalls
      ∧ (build_library_from_source inst env sources library_name linktype caches bst).1
          = some n)
    ∧ ((build_library_from_source inst env sources library_name linktype
          (build_library_from_source inst env sources library_name linktype caches bst).2.1
          (build_library_from_source inst env sources library_name linktype caches bst).2.2).1
        = (build_library_from_source inst env sources library_name linktype caches bst).1
      ∧ (build_library_from_source inst env sources library_name linktype
          (build_library_from_source inst env sources library_name linktype caches bst).2.1
          (build_library_from_source inst env sources library_name linktype caches bst).2.2).2.2.libCalls
        = (build_library_from_source inst env sources library_name linktype caches bst).2.2.libCalls) := by
  have hguard : ¬ (¬ pyStrTruthy inst.sourcePath ∧ sources.isEmpty) := by
    rcases h with h | h
    · exact fun hc => hc.1 h
    · exact fun hc => h hc.2
  have hidem := build_library_from_source_idem inst env sources library_name linktype caches bst h
  refine ⟨?_, ?_, congrArg Prod.fst hidem, congrArg (fun r => r.2.2.libCalls) hidem⟩
  · intro hnone
    simp only [bls_unfold inst env sources library_name linktype caches bst hguard,
      lazy_store_roundtrip]
    constructor
    · rw [libPhase_build_libCalls _ _ _ _ _ _ _ hnone]
      rw [(objectLoop_preserves _ _ _ _ _ _).1]
    · exact libPhase_self_mem _ _ _ _ _ _ _
  · intro n hsome
    simp only [bls_unfold inst env sources library_name linktype caches bst hguard,
      lazy_store_roundtrip]
    rw [libPhase_found _ _ _ _ _ _ _ n hsome]
    exact ⟨(objectLoop_preserves _ _ _ _ _ _).1, rfl⟩

/-- C2 witness: the first call at a concrete input builds the library once
(library-builder invocations go from 0 to 1). -/
theorem C2_witness :
    (pyStrTruthy instSrc.sourcePath ∨ ¬ srcsA.isEmpty)
    ∧ afind (lazy_create_node instSrc.name envNone.toolVariantDir caches0.prebuiltLibraries)
        (effectiveLinktype instSrc none) = none
    ∧ (build_library_from_source instSrc envNone srcsA none none caches0 bst0).2.2.libCalls
        = bst0.libCalls + 1 :=
  ⟨Or.inl (by decide), rfl,
   ((C2_library_node_created_at_most_once instSrc envNone srcsA none none caches0 bst0
     (Or.inl (by decide))).1 rfl).1⟩

/-- C3 counterexample: with a class default include configured, the second
`create` call under identical options returns an instance whose include
list has the default appended (and hence joined) a second time, so the
returned instances differ. -/
theorem C3_counterexample :
    Option.map Instance.includes
        (create cfgDefInc mkOk (create cfgDefInc mkOk (initClassState none none) envNone).2 envNone).1
      = some ["/loc/inc", "/loc/inc"]
    ∧ Option.map Instance.includes
        (create cfgDefInc mkOk (initClassState none none) envNone).1
      = some ["/loc/inc"]
    ∧ Option.map Instance.includes
        (create cfgDefInc mkOk (create cfgDefInc mkOk (initClassState none none) envNone).2 envNone).1
      ≠ Option.map Instance.includes
        (create cfgDefInc mkOk (initClassState none none) envNone).1 :=
  ⟨rfl, rfl, by decide⟩

/-- C3 (amended): `create` is idempotent — repeated calls with identical
options return identical instances (hence identical includes,
sys-includes, source path and link type) — provided the class has no
default include and no default sys-include; those two defaults are
re-appended by every call and are the only source of non-idempotence. -/
theorem C3_amended_create_idempotent (cfg : ClassCfg) (mk : MkLocation Env)
    (st : ClassState) (env : Env)
    (hI : ¬ pyStrTruthy cfg.defaultInclude)
    (hS : ¬ pyStrTruthy cfg.defaultSysInclude) :
    create cfg mk (create cfg mk st env).2 env = create cfg mk st env :=
  create_stable cfg mk st env hI hS

/-- C3 amended witness: idempotence at a concrete default-free class. -/
theorem C3_amended_witness :
    ¬ pyStrTruthy cfgDefLoc.defaultInclude
    ∧ ¬ pyStrTruthy cfgDefLoc.defaultSysInclude
    ∧ create cfgDefLoc mkOk (create cfgDefLoc mkOk (initClassState none none) envNone).2 envNone
        = create cfgDefLoc mkOk (initClassState none none) envNone :=
  ⟨by decide, by decide,
   C3_amended_create_idempotent cfgDefLoc mkOk (initClassState none none) envNone
     (by decide) (by decide)⟩

/-- C9 counterexample: with a relative local path, the substituted default
include entry is joined onto the local path rather than kept, so the
stored include list is not the one-element list of the local path. -/
theorem C9_counterexample :
    (base_init cfgPlain locRel [] [] none none).includes = ["rel/rel"]
    ∧ (base_init cfgPlain locRel [] [] none none).includes ≠ [locRel.localPath] :=
  ⟨rfl, by decide⟩

/-- C9 (amended): when the location's local path is absolute, constructing
an instance with empty includes and empty sys-includes yields an include
path list that is exactly the one-element list of the local path, and an
empty sys-include list. -/
theorem C9_amended_default_include_is_local (cfg : ClassCfg) (loc : Location)
    (source_path linktype : Option String)
    (h : os_path_isabs loc.localPath) :
    (base_init cfg loc [] [] source_path linktype).includes = [loc.localPath]
    ∧ (base_init cfg loc [] [] source_path linktype).sysIncludes = [] := by
  have hne : loc.localPath ≠ "" := by
    intro he
    rw [os_path_isabs, he] at h
    exact absurd h (by decide)
  constructor
  · simp [base_init, processEntry, hne, h]
  · simp [base_init, processEntry]

/-- C9 amended witness: the default include at a concrete absolute
location. -/
theorem C9_amended_witness :
    os_path_isabs locA.localPath
    ∧ (base_init cfgPlain locA [] [] none none).includes = [locA.localPath]
    ∧ (base_init cfgPlain locA [] [] none none).sysIncludes = [] :=
  ⟨by decide,
   (C9_amended_default_include_is_local cfgPlain locA none none (by decide)).1,
   (C9_amended_default_include_is_local cfgPlain locA none none (by decide)).2⟩

/-- C10 counterexample: when both supplied lists are empty the stored
include list holds the location's local path, which is not derived from
any supplied path (nothing was supplied), so the claimed invariant fails
for instances constructed with no supplied paths. -/
theorem C10_counterexample :
    "/loc" ∈ (base_init cfgPlain locA [] [] none none).includes
    ∧ ¬ suppliedEntryProp locA (([] : List (Option String)) ++ ([] : List (Option String))) "/loc" := by
  constructor
  · show "/loc" ∈ (base_init cfgPlain locA [] [] none none).includes
    decide
  · rintro ⟨s, hs, -⟩
    simp at hs

/-- C10 (amended): for every instance constructed with at least one
supplied include or sys-include entry, the stored lists are exactly the
supplied lists filtered and mapped entrywise — falsy (empty or `None`)
entries dropped, absolute paths unchanged, relative paths joined onto the
local path — and hence every stored entry arises from a supplied path as
the claim describes. -/
theorem C10_amended_entries_from_supplied (cfg : ClassCfg) (loc : Location)
    (includes sys_includes : List (Option String)) (sp lt : Option String)
    (h : ¬ (includes.isEmpty ∧ sys_includes.isEmpty)) :
    (base_init cfg loc includes sys_includes sp lt).includes
        = includes.filterMap (processEntry loc)
    ∧ (base_init cfg loc includes sys_includes sp lt).sysIncludes
        = sys_includes.filterMap (processEntry loc)
    ∧ (∀ entry ∈ (base_init cfg loc includes sys_includes sp lt).includes,
        suppliedEntryProp loc includes entry)
    ∧ (∀ entry ∈ (base_init cfg loc includes sys_includes sp lt).sysIncludes,
        suppliedEntryProp loc sys_includes entry) := by
  have h1 : (base_init cfg loc includes sys_includes sp lt).includes
      = includes.filterMap (processEntry loc) := by
    simp only [base_init, if_neg h]
  have h2 : (base_init cfg loc includes sys_includes sp lt).sysIncludes
      = sys_includes.filterMap (processEntry loc) := by
    simp only [base_init, if_neg h]
  refine ⟨h1, h2, ?_, ?_⟩
  · intro entry hmem
    rw [h1] at hmem
    exact processEntry_mem loc includes entry hmem
  · intro entry hmem
    rw [h2] at hmem
    exact processEntry_mem loc sys_includes entry hmem

/-- C10 amended witness: a concrete supplied list with an absolute entry, an
empty entry and a `None` entry. -/
theorem C10_amended_witness :
    ¬ (([some "/a", some "", none] : List (Option String)).isEmpty
        ∧ ([] : List (Option String)).isEmpty)
    ∧ (base_init cfgPlain locA [some "/a", some "", none] [] none none).includes
        = ([some "/a", some "", none] : List (Option String)).filterMap (processEntry locA) :=
  ⟨by decide,
   (C10_amended_entries_from_supplied cfgPlain locA [some "/a", some "", none] [] none none
     (by decide)).1⟩

/-- C4: `location_id` resolves the location with the precedence: an explicit
CLI `--<dep>-location` option overrides the class default location; the
class default overrides the branch-derived fallback taken from the
environment; and with no CLI option, no class default and no branch, the
function returns `None`. -/
theorem C4_location_id_precedence :
    (∀ (cfg : ClassCfg) (env : Env) (s : String),
      env.getOption (cfg.name ++ "-location") = some s → s ≠ "" →
      location_id cfg env
        = some (os_path_expanduser env.home s, env.getOption (cfg.name ++ "-branch")))
    ∧ (∀ (cfg : ClassCfg) (env : Env) (d : String),
      ¬ pyStrTruthy (env.getOption (cfg.name ++ "-location")) →
      cfg.defaultLocation = some d → d ≠ "" →
      location_id cfg env
        = some (os_path_expanduser env.home d, env.getOption (cfg.name ++ "-branch")))
    ∧ (∀ (cfg : ClassCfg) (env : Env),
      ¬ pyStrTruthy (env.getOption (cfg.name ++ "-location")) →
      ¬ pyStrTruthy cfg.defaultLocation →
      ¬ pyStrTruthy (env.getOption (cfg.name ++ "-branch")) →
      location_id cfg env = none) := by
  refine ⟨?_, ?_, ?_⟩
  · intro cfg env s ht hs
    have hts : pyStrTruthy (some s) = true := by simp [pyStrTruthy, hs]
    simp [location_id, ht, hts]
  · intro cfg env d hcli hd hne
    have hdd : pyStrTruthy (some d) = true := by simp [pyStrTruthy, hne]
    simp [location_id, hcli, hd, hdd]
  · intro cfg env hcli hdef hbr
    simp [location_id, hcli, hdef, hbr]

/-- C4 witness: the three precedence conjuncts at concrete inputs. -/
theorem C4_witness :
    (envCli.getOption (cfgDefLoc.name ++ "-location") = some "/cli"
      ∧ location_id cfgDefLoc envCli
          = some (os_path_expanduser envCli.home "/cli",
              envCli.getOption (cfgDefLoc.name ++ "-branch")))
    ∧ (¬ pyStrTruthy (envNone.getOption (cfgDefLoc.name ++ "-location"))
      ∧ location_id cfgDefLoc envNone
          = some (os_path_expanduser envNone.home "/dl",
              envNone.getOption (cfgDefLoc.name ++ "-branch")))
    ∧ (¬ pyStrTruthy (envNone.getOption (cfgPlain.name ++ "-location"))
      ∧ location_id cfgPlain envNone = none) :=
  ⟨⟨by decide,
    C4_location_id_precedence.1 cfgDefLoc envCli "/cli" (by decide) (by decide)⟩,
   ⟨by decide,
    C4_location_id_precedence.2.1 cfgDefLoc envNone "/dl" (by decide) (by decide) (by decide)⟩,
   ⟨by decide,
    C4_location_id_precedence.2.2 cfgPlain envNone (by decide) (by decide) (by decide)⟩⟩

/-- C5: the three non-fatal conditions resolve to `None` and never raise:
`location_id` returns `None` when no location is configurable (no CLI
option and no default, with either no branch or only falsy fallback
roots); `_get_location` returns `None` with the cache untouched when the
`Location` constructor fails with a `LocationException`; and `create`
returns `None` whenever `_get_location` yields `None`. -/
theorem C5_none_never_raised :
    (∀ (cfg : ClassCfg) (env : Env),
      ¬ pyStrTruthy (env.getOption (cfg.name ++ "-location")) →
      ¬ pyStrTruthy cfg.defaultLocation →
      ¬ pyStrTruthy (env.getOption (cfg.name ++ "-branch")) →
      location_id cfg env = none)
    ∧ (∀ (cfg : ClassCfg) (env : Env),
      ¬ pyStrTruthy (env.getOption (cfg.name ++ "-location")) →
      ¬ pyStrTruthy cfg.defaultLocation →
      ¬ pyStrTruthy env.branchRoot →
      ¬ pyStrTruthy env.thirdparty →
      location_id cfg env = none)
    ∧ (∀ (cfg : ClassCfg) (mk : MkLocation Env)
        (cache : List ((String × Option String) × Location)) (env : Env)
        (lid : String × Option String) (e : String),
      location_id cfg env = some lid →
      afind cache lid = none →
      mk env lid.1 lid.2 cfg.extraSubPath = .error e →
      get_location cfg mk cache env = (none, cache))
    ∧ (∀ (cfg : ClassCfg) (mk : MkLocation Env) (st : ClassState) (env : Env),
      (get_location cfg mk st.cachedLocations env).1 = none →
      (create cfg mk st env).1 = none) := by
  refine ⟨?_, ?_, ?_, ?_⟩
  · intro cfg env hcli hdef hbr
    simp [location_id, hcli, hdef, hbr]
  · intro cfg env hcli hdef hroot htp
    by_cases hbr : pyStrTruthy (env.getOption (cfg.name ++ "-branch"))
    · simp [location_id, hcli, hdef, hbr, hroot, htp]
    · simp [location_id, hcli, hdef, hbr]
  · intro cfg mk cache env lid e hlid hfind hmk
    unfold get_location
    simp only [hlid, hfind, hmk]
  · intro cfg mk st env hnone
    unfold create
    cases hg : get_location cfg mk st.cachedLocations env with
    | mk oloc cache =>
        cases oloc with
        | none => simp
        | some loc =>
            rw [hg] at hnone
            simp at hnone

/-- C5 witness: the four conjuncts at concrete inputs (the failing
constructor is `mkFail`). -/
theorem C5_witness :
    location_id cfgPlain envNone = none
    ∧ location_id cfgPlain envBranchNoRoots = none
    ∧ get_location cfgDefLoc mkFail [] envNone = (none, [])
    ∧ (create cfgPlain mkFail (initClassState none none) envNone).1 = none :=
  ⟨C5_none_never_raised.1 cfgPlain envNone (by decide) (by decide) (by decide),
   C5_none_never_raised.2.1 cfgPlain envBranchNoRoots (by decide) (by decide) (by decide) (by decide),
   C5_none_never_raised.2.2.1 cfgDefLoc mkFail [] envNone ("/dl", none) "fetch failed"
     rfl rfl rfl,
   C5_none_never_raised.2.2.2 cfgPlain mkFail (initClassState none none) envNone rfl⟩

/-- C6: when the instance has no configured source path and no explicit
sources are passed, `build_library_from_source` logs one warning and
returns `None`, leaving both artifact caches and every builder counter
untouched. -/
theorem C6_no_sources_warns_and_skips_caches (inst : Instance) (env : Env)
    (library_name linktype : Option String) (caches : Caches) (bst : BuildState)
    (h : ¬ pyStrTruthy inst.sourcePath) :
    build_library_from_source inst env [] library_name linktype caches bst
      = (none, caches, { bst with warns := bst.warns + 1 }) := by
  simp [build_library_from_source, h]

/-- C6 witness: the degenerate call at a concrete instance without a source
path. -/
theorem C6_witness :
    ¬ pyStrTruthy instNoSrc.sourcePath
    ∧ build_library_from_source instNoSrc envNone [] none none caches0 bst0
        = (none, caches0, { bst0 with warns := bst0.warns + 1 }) :=
  ⟨by decide,
   C6_no_sources_warns_and_skips_caches instNoSrc envNone none none caches0 bst0 (by decide)⟩

/-- C7 counterexample: `add_options` registers seven flags, not six, so the
claimed count is wrong (the seven listed flag names are correct). -/
theorem C7_counterexample :
    (add_options cfgPlain).length = 7 ∧ (add_options cfgPlain).length ≠ 6 := by
  exact ⟨rfl, by decide⟩

/-- C7 (amended): for every dependency name, `add_options` registers exactly
seven configuration flags — location, branch, include, sys-include,
extra-sub-path, source-path and linktype — calling the supplied
`add_option` callback once per flag, in that order; it is side-effecting
only (its effect is exactly this invocation list). -/
theorem C7_amended_seven_flags (cfg : ClassCfg) :
    (add_options cfg).map OptionSpec.flag
      = [ "--" ++ cfg.name ++ "-location"
        , "--" ++ cfg.name ++ "-branch"
        , "--" ++ cfg.name ++ "-include"
        , "--" ++ cfg.name ++ "-sys-include"
        , "--" ++ cfg.name ++ "-extra-sub-path"
        , "--" ++ cfg.name ++ "-source-path"
        , "--" ++ cfg.name ++ "-linktype" ]
    ∧ (add_options cfg).length = 7 :=
  ⟨rfl, rfl⟩

/-- C8 counterexample: with a branch given, no CLI location, no default
location and a falsy (empty) `branch_root`, the second branch-guarded
fallback does execute: `location_id` returns the location taken from
`env['thirdparty']`. -/
theorem C8_counterexample :
    envBranchOnly.branchRoot = some ""
    ∧ envBranchOnly.thirdparty = some "/tp"
    ∧ cfgPlain.defaultLocation = none
    ∧ envBranchOnly.getOption (cfgPlain.name ++ "-location") = none
    ∧ location_id cfgPlain envBranchOnly = some ("/tp", some "dev") :=
  ⟨rfl, rfl, rfl, rfl, rfl⟩

/-- C8 (amended): the `env['thirdparty']` fallback can only execute when
`env['branch_root']` is itself falsy; whenever `branch_root` is truthy the
result of `location_id` is independent of `env['thirdparty']`. -/
theorem C8_amended_thirdparty_needs_falsy_branch_root
    (cfg : ClassCfg) (env env' : Env)
    (hgo : env'.getOption = env.getOption)
    (hbr : env'.branchRoot = env.branchRoot)
    (hh : env'.home = env.home)
    (h : pyStrTruthy env.branchRoot) :
    location_id cfg env' = location_id cfg env := by
  by_cases hcli : pyStrTruthy (env.getOption (cfg.name ++ "-location"))
  · simp [location_id, hgo, hbr, hh, hcli]
  · by_cases hdef : pyStrTruthy cfg.defaultLocation
    · simp [location_id, hgo, hbr, hh, hcli, hdef]
    · by_cases hB : pyStrTruthy (env.getOption (cfg.name ++ "-branch"))
      · simp [location_id, hgo, hbr, hh, hcli, hdef, hB, h]
      · simp [location_id, hgo, hbr, hh, hcli, hdef, hB]

/-- C8 amended witness: with a truthy `branch_root` the thirdparty value is
irrelevant at a concrete input. -/
theorem C8_amended_witness :
    pyStrTruthy envBranchRoot.branchRoot
    ∧ location_id cfgPlain { envBranchRoot with thirdparty := some "/other" }
        = location_id cfgPlain envBranchRoot :=
  ⟨by decide,
   C8_amended_thirdparty_needs_falsy_branch_root cfgPlain envBranchRoot
     { envBranchRoot with thirdparty := some "/other" } rfl rfl rfl (by decide)⟩

end Cuppa
